import Mathlib

/-!
Shallow embedding of the med-calculator front end: the calculation engine
(BMI categorization, Harris-Benedict calories, blood-pressure rules), the
client-side validation paths, the history/pagination controller and the
identity store, translated from the JavaScript sources, together with
theorems settling the specified properties.

JavaScript numbers are modelled as exact rationals `ℚ` (the inputs in all
relevant runs are small decimals, where JS float arithmetic agrees with
exact arithmetic on the stated properties); `parseInt` results are `ℤ`.
A parse that yields `NaN`, and a field that is absent, are modelled as
`Option.none`.  `x.toFixed(1)` / `x.toFixed(0)` / `Math.round x` for the
non-negative values at hand all round half towards positive infinity,
i.e. `round` on `ℚ`.
-/

/-- Category record returned by `IMTCalculator.getIMTCategory`
(`src/frontend/js/calculators.js`).  The source field `class` is spelled
`cls` because `class` is a Lean keyword. -/
structure IMTCategory where
  cls : String
  text : String
deriving DecidableEq

/-- Function `IMTCalculator.getIMTCategory` from `src/frontend/js/calculators.js`:
the seven-branch if/else chain over the BMI value. -/
def IMTCalculator.getIMTCategory (imt : ℚ) : IMTCategory :=
  if imt < 16 then ⟨"danger", "Выраженный дефицит массы тела"⟩
  else if imt < 18.5 then ⟨"warning", "Недостаточная масса тела"⟩
  else if imt < 25 then ⟨"success", "Нормальная масса тела"⟩
  else if imt < 30 then ⟨"warning", "Избыточная масса тела (предожирение)"⟩
  else if imt < 35 then ⟨"danger", "Ожирение I степени"⟩
  else if imt < 40 then ⟨"danger", "Ожирение II степени"⟩
  else ⟨"danger", "Ожирение III степени (морбидное)"⟩

/-- Display value `imt.toFixed(1)` in `IMTCalculator.calculate`: the BMI value displayed
to the user, rounded to one decimal place. -/
def IMTCalculator.displayValue (imt : ℚ) : ℚ :=
  (round (imt * 10) : ℚ) / 10

/-- Result record of `calculateBP` in `src/js/app.js` (category label,
interpretation text, CSS severity class). -/
structure BPResult where
  category : String
  interpretation : String
  resultClass : String
deriving DecidableEq

/-- The blood-pressure classification chain of `calculateBP` in
`src/js/app.js` (first matching rule wins). -/
def calculateBP (systolic diastolic : ℤ) : BPResult :=
  if systolic < 120 ∧ diastolic < 80 then
    ⟨"Нормальное", "Оптимальное артериальное давление", "success"⟩
  else if systolic < 130 ∧ diastolic < 80 then
    ⟨"Повышенное", "Внимание: следите за давлением", "warning"⟩
  else if systolic < 140 ∨ diastolic < 90 then
    ⟨"Гипертензия I степени", "Рекомендуется консультация врача", "warning"⟩
  else
    ⟨"Гипертензия II степени", "Требуется срочная консультация врача", "danger"⟩

/-- Gender selector of the calories calculator ('м' / 'ж' in the source). -/
inductive Gender
  | m
  | f
deriving DecidableEq

/-- Result record of `calculateCalories` in `src/js/app.js`: the
Harris-Benedict BMR, the TDEE, the integer shown to the user
(`tdee.toFixed(0)` there; `Math.round(tdee)` in
`src/frontend/js/calculators.js`), and the always-"success" CSS class. -/
structure CaloriesResult where
  bmr : ℚ
  tdee : ℚ
  displayTdee : ℤ
  resultClass : String
deriving DecidableEq

/-- Function `calculateCalories` from `src/js/app.js` on validated inputs: the
Harris-Benedict formula per gender, `tdee = bmr * activity`, rounded
display value, severity always "success". -/
def calculateCalories (gender : Gender) (age weight height activity : ℚ) :
    CaloriesResult :=
  let bmr : ℚ :=
    match gender with
    | .m => 88.362 + 13.397 * weight + 4.799 * height - 5.677 * age
    | .f => 447.593 + 9.247 * weight + 3.098 * height - 4.330 * age
  let tdee := bmr * activity
  ⟨bmr, tdee, round tdee, "success"⟩

/-- C1: for every BMI value `b`, `IMTCalculator.getIMTCategory` returns
exactly the category and severity of the spec table (b < 16 → severe
underweight / danger; 16 ≤ b < 18.5 → underweight / warning; 18.5 ≤ b < 25
→ normal / success; 25 ≤ b < 30 → overweight / warning; 30 ≤ b < 35 →
obesity I / danger; 35 ≤ b < 40 → obesity II / danger; 40 ≤ b → obesity
III / danger), and the displayed value is `b` rounded to one decimal
place (within 1/20 of `b`). -/
theorem imt_category_spec_table (b : ℚ) :
    (b < 16 →
      IMTCalculator.getIMTCategory b = ⟨"danger", "Выраженный дефицит массы тела"⟩) ∧
    (16 ≤ b → b < 18.5 →
      IMTCalculator.getIMTCategory b = ⟨"warning", "Недостаточная масса тела"⟩) ∧
    (18.5 ≤ b → b < 25 →
      IMTCalculator.getIMTCategory b = ⟨"success", "Нормальная масса тела"⟩) ∧
    (25 ≤ b → b < 30 →
      IMTCalculator.getIMTCategory b = ⟨"warning", "Избыточная масса тела (предожирение)"⟩) ∧
    (30 ≤ b → b < 35 →
      IMTCalculator.getIMTCategory b = ⟨"danger", "Ожирение I степени"⟩) ∧
    (35 ≤ b → b < 40 →
      IMTCalculator.getIMTCategory b = ⟨"danger", "Ожирение II степени"⟩) ∧
    (40 ≤ b →
      IMTCalculator.getIMTCategory b = ⟨"danger", "Ожирение III степени (морбидное)"⟩) ∧
    IMTCalculator.displayValue b = (round (b * 10) : ℚ) / 10 ∧
    |IMTCalculator.displayValue b - b| ≤ 1 / 20 := by
  refine ⟨?_, ?_, ?_, ?_, ?_, ?_, ?_, rfl, ?_⟩
  case _ =>
    intro h
    simp only [IMTCalculator.getIMTCategory]
    split_ifs <;> first | rfl | linarith
  case _ =>
    intro h1 h2
    simp only [IMTCalculator.getIMTCategory]
    split_ifs <;> first | rfl | linarith
  case _ =>
    intro h1 h2
    simp only [IMTCalculator.getIMTCategory]
    split_ifs <;> first | rfl | linarith
  case _ =>
    intro h1 h2
    simp only [IMTCalculator.getIMTCategory]
    split_ifs <;> first | rfl | linarith
  case _ =>
    intro h1 h2
    simp only [IMTCalculator.getIMTCategory]
    split_ifs <;> first | rfl | linarith
  case _ =>
    intro h1 h2
    simp only [IMTCalculator.getIMTCategory]
    split_ifs <;> first | rfl | linarith
  case _ =>
    intro h
    simp only [IMTCalculator.getIMTCategory]
    split_ifs <;> first | rfl | linarith
  case _ =>
    have h := abs_sub_round (b * 10)
    rw [abs_sub_comm] at h
    have e : IMTCalculator.displayValue b - b = ((round (b * 10) : ℚ) - b * 10) / 10 := by
      unfold IMTCalculator.displayValue
      ring
    rw [e, abs_div]
    have e10 : |(10 : ℚ)| = 10 := by norm_num
    rw [e10]
    have := (div_le_div_right (show (0 : ℚ) < 10 by norm_num)).2 h
    calc |(round (b * 10) : ℚ) - b * 10| / 10 ≤ (1 / 2) / 10 := this
      _ = 1 / 20 := by norm_num

/-- Witness for C1: the boundary value 18.5 is classified as normal with
severity "success". -/
theorem imt_category_spec_table_witness :
    IMTCalculator.getIMTCategory 18.5 = ⟨"success", "Нормальная масса тела"⟩ :=
  (imt_category_spec_table 18.5).2.2.1 (by norm_num) (by norm_num)

/-- C2: for positive integer readings with systolic > diastolic,
`calculateBP` applies the spec's ordered rules with first match winning:
systolic < 120 and diastolic < 80 → normal / success; else systolic < 130
and diastolic < 80 → elevated / warning; else systolic < 140 or
diastolic < 90 → hypertension stage I / warning; otherwise stage II /
danger. -/
theorem calculateBP_spec_rules (s d : ℤ) (hs : 0 < s) (hd : 0 < d) (hds : d < s) :
    (s < 120 ∧ d < 80 →
      calculateBP s d = ⟨"Нормальное", "Оптимальное артериальное давление", "success"⟩) ∧
    (¬(s < 120 ∧ d < 80) → s < 130 ∧ d < 80 →
      calculateBP s d = ⟨"Повышенное", "Внимание: следите за давлением", "warning"⟩) ∧
    (¬(s < 120 ∧ d < 80) → ¬(s < 130 ∧ d < 80) → (s < 140 ∨ d < 90) →
      calculateBP s d = ⟨"Гипертензия I степени", "Рекомендуется консультация врача", "warning"⟩) ∧
    (140 ≤ s → 90 ≤ d →
      calculateBP s d = ⟨"Гипертензия II степени", "Требуется срочная консультация врача", "danger"⟩) := by
  refine ⟨?_, ?_, ?_, ?_⟩ <;>
    · intros
      simp only [calculateBP]
      split_ifs <;> first | rfl | omega

/-- Witness for C2: the four concrete readings named by the claim land in
the claimed categories and severities. -/
theorem calculateBP_spec_rules_witness :
    calculateBP 119 79 = ⟨"Нормальное", "Оптимальное артериальное давление", "success"⟩ ∧
    calculateBP 125 79 = ⟨"Повышенное", "Внимание: следите за давлением", "warning"⟩ ∧
    calculateBP 135 85 = ⟨"Гипертензия I степени", "Рекомендуется консультация врача", "warning"⟩ ∧
    calculateBP 150 95 = ⟨"Гипертензия II степени", "Требуется срочная консультация врача", "danger"⟩ := by
  refine ⟨?_, ?_, ?_, ?_⟩
  · exact (calculateBP_spec_rules 119 79 (by decide) (by decide) (by decide)).1
      (by constructor <;> decide)
  · exact (calculateBP_spec_rules 125 79 (by decide) (by decide) (by decide)).2.1
      (by intro h; exact absurd h.1 (by decide)) (by constructor <;> decide)
  · exact (calculateBP_spec_rules 135 85 (by decide) (by decide) (by decide)).2.2.1
      (by intro h; exact absurd h.2 (by decide)) (by intro h; exact absurd h.2 (by decide))
      (Or.inl (by decide))
  · exact (calculateBP_spec_rules 150 95 (by decide) (by decide) (by decide)).2.2.2
      (by decide) (by decide)

/-- C3: on valid inputs, the basal metabolic rate follows the
Harris-Benedict formula for each gender, TDEE is BMR times the activity
factor, the displayed output is TDEE rounded to the nearest integer
(within 1/2 of TDEE), and the severity class is always "success". -/
theorem calculateCalories_spec (g : Gender) (age weight height activity : ℚ)
    (hage : 0 < age) (hw : 0 < weight) (hh : 0 < height) (hact : 0 < activity) :
    ((g = .m → (calculateCalories g age weight height activity).bmr =
        88.362 + 13.397 * weight + 4.799 * height - 5.677 * age) ∧
     (g = .f → (calculateCalories g age weight height activity).bmr =
        447.593 + 9.247 * weight + 3.098 * height - 4.330 * age)) ∧
    (calculateCalories g age weight height activity).tdee =
      (calculateCalories g age weight height activity).bmr * activity ∧
    (calculateCalories g age weight height activity).displayTdee =
      round ((calculateCalories g age weight height activity).tdee) ∧
    |((calculateCalories g age weight height activity).displayTdee : ℚ) -
      (calculateCalories g age weight height activity).tdee| ≤ 1 / 2 ∧
    (calculateCalories g age weight height activity).resultClass = "success" := by
  have habs : ∀ t : ℚ, |(round t : ℚ) - t| ≤ 1 / 2 := by
    intro t
    have h := abs_sub_round t
    rwa [abs_sub_comm] at h
  cases g <;>
    exact ⟨⟨fun h => by simp_all [calculateCalories], fun h => by simp_all [calculateCalories]⟩,
      rfl, rfl, habs _, rfl⟩

/-- Witness for C3: the spec's §8 example (male, age 25, weight 70,
height 175, activity 1.2) follows the male formula and the "success"
severity; numerically the displayed TDEE is 2069 kcal. -/
theorem calculateCalories_spec_witness :
    (calculateCalories .m 25 70 175 1.2).bmr =
      88.362 + 13.397 * 70 + 4.799 * 175 - 5.677 * 25 ∧
    (calculateCalories .m 25 70 175 1.2).resultClass = "success" := by
  have h := calculateCalories_spec .m 25 70 175 1.2 (by norm_num) (by norm_num)
    (by norm_num) (by norm_num)
  exact ⟨h.1.1 rfl, h.2.2.2.2⟩

/-- Outcome of one run of `CaloriesCalculator.calculate`
(`src/frontend/js/calculators.js`): either a validation error shown to
the user with no network call, or the API request actually issued, with
the payload fields as parsed (`none` models a missing field / `NaN`). -/
inductive CaloriesOutcome
  | validationError (msg : String)
  | apiCall (age weight height : Option ℚ) (gender : Gender) (activity : Option ℚ)
deriving DecidableEq

/-- JS falsiness of a parsed number (`!x`): true for a missing / `NaN`
parse and for 0. -/
def jsFalsyNum : Option ℚ → Bool
  | none => true
  | some v => v == 0

/-- JS comparison `x <= 0` on a parsed number: false for `NaN`. -/
def jsLeZero : Option ℚ → Bool
  | none => false
  | some v => decide (v ≤ 0)

/-- True exactly when `CaloriesOutcome` is an issued API request. -/
def CaloriesOutcome.isApiCall : CaloriesOutcome → Bool
  | .apiCall _ _ _ _ _ => true
  | .validationError _ => false

/-- The validation-and-dispatch path of `CaloriesCalculator.calculate`
(`src/frontend/js/calculators.js`): gender is checked first, then
`!age || !weight || !height || age <= 0 || weight <= 0 || height <= 0`;
if both guards pass, `api.calculateCalories` is called with the parsed
values — the activity factor is passed through without any check. -/
def CaloriesCalculator.calculate (gender : Option Gender)
    (age weight height activity : Option ℚ) : CaloriesOutcome :=
  match gender with
  | none => .validationError "Выберите пол"
  | some g =>
    if jsFalsyNum age || jsFalsyNum weight || jsFalsyNum height
        || jsLeZero age || jsLeZero weight || jsLeZero height then
      .validationError "Введите корректные значения"
    else
      .apiCall age weight height g activity

/-- A field that is missing or non-positive, as the calories guard
rejects it: `none`, or a value ≤ 0. -/
def badField : Option ℚ → Bool
  | none => true
  | some v => decide (v ≤ 0)

/-- Counterexample to C4 as stated: a calories input whose activity
factor is 0 (non-positive) but whose other fields are valid reaches the
API client — `CaloriesCalculator.calculate` issues the request instead of
reporting a validation failure. -/
theorem calories_activity_reaches_api :
    (CaloriesCalculator.calculate (some .m) (some 25) (some 70) (some 175)
      (some 0)).isApiCall = true := by
  norm_num [CaloriesCalculator.calculate, jsFalsyNum, jsLeZero,
    CaloriesOutcome.isApiCall]

/-- Assembled per-field guard: `!x || x <= 0` rejects exactly a missing
field or a non-positive value. -/
theorem falsy_or_le (x : Option ℚ) : (jsFalsyNum x || jsLeZero x) = badField x := by
  cases x with
  | none => rfl
  | some v =>
    simp only [jsFalsyNum, jsLeZero, badField]
    by_cases h0 : v = 0
    · simp [h0]
    · have hb : (v == 0) = false := beq_eq_false_iff_ne.2 h0
      simp [hb]

/-- Reassociation of the six-way guard disjunction into per-field pairs. -/
theorem guard_reorder (a b c d e f : Bool) :
    (a || b || c || d || e || f) = ((a || d) || ((b || e) || (c || f))) := by
  cases a <;> cases b <;> cases c <;> cases d <;> cases e <;> cases f <;> rfl

/-- The calories guard is exactly: some of age, weight, height missing or
non-positive. -/
theorem caloriesGuard_eq (age weight height : Option ℚ) :
    (jsFalsyNum age || jsFalsyNum weight || jsFalsyNum height
      || jsLeZero age || jsLeZero weight || jsLeZero height) =
    (badField age || (badField weight || badField height)) := by
  have h := guard_reorder (jsFalsyNum age) (jsFalsyNum weight) (jsFalsyNum height)
    (jsLeZero age) (jsLeZero weight) (jsLeZero height)
  rw [show (jsFalsyNum age || jsFalsyNum weight || jsFalsyNum height
      || jsLeZero age || jsLeZero weight || jsLeZero height) =
    ((jsFalsyNum age || jsLeZero age) || ((jsFalsyNum weight || jsLeZero weight)
      || (jsFalsyNum height || jsLeZero height))) from by
      cases jsFalsyNum age <;> cases jsFalsyNum weight <;> cases jsFalsyNum height <;>
        cases jsLeZero age <;> cases jsLeZero weight <;> cases jsLeZero height <;> rfl]
  rw [falsy_or_le, falsy_or_le, falsy_or_le]

/-- C4 (amended): `CaloriesCalculator.calculate` reports a validation
failure and issues no network call exactly when gender is unselected or
one of age, weight, height is missing or non-positive; the activity
factor is not validated, and when the other fields are valid the request
is issued with whatever activity value was parsed (including a missing
or non-positive one). -/
theorem calories_validation_spec (gender : Option Gender)
    (age weight height activity : Option ℚ) :
    ((CaloriesCalculator.calculate gender age weight height activity).isApiCall = false ↔
      gender = none ∨ badField age = true ∨ badField weight = true ∨
        badField height = true) ∧
    (∀ g : Gender, gender = some g →
      badField age = false → badField weight = false → badField height = false →
      CaloriesCalculator.calculate gender age weight height activity =
        .apiCall age weight height g activity) := by
  constructor
  · cases gender with
    | none => simp [CaloriesCalculator.calculate, CaloriesOutcome.isApiCall]
    | some g =>
      simp only [CaloriesCalculator.calculate, caloriesGuard_eq]
      by_cases hg : (badField age || (badField weight || badField height)) = true
      · rw [if_pos hg]
        simp only [CaloriesOutcome.isApiCall]
        simp only [Bool.or_eq_true] at hg
        constructor
        · intro _
          tauto
        · intro _
          trivial
      · rw [if_neg hg]
        simp only [CaloriesOutcome.isApiCall]
        have h3 : badField age = false ∧ badField weight = false ∧ badField height = false := by
          simp only [Bool.or_eq_true, not_or, Bool.not_eq_true] at hg
          exact ⟨hg.1, hg.2.1, hg.2.2⟩
        simp [h3.1, h3.2.1, h3.2.2]
  · intro g hg ha hw hh
    subst hg
    simp only [CaloriesCalculator.calculate, caloriesGuard_eq]
    rw [if_neg]
    simp [ha, hw, hh]

/-- Witness for C4 (amended): valid age/weight/height and selected gender
with a missing activity factor still issue the API request, activity
passed through unvalidated. -/
theorem calories_validation_spec_witness :
    CaloriesCalculator.calculate (some .m) (some 25) (some 70) (some 175) none =
      .apiCall (some 25) (some 70) (some 175) .m none :=
  (calories_validation_spec (some .m) (some 25) (some 70) (some 175) none).2 .m rfl
    (by norm_num [badField]) (by norm_num [badField]) (by norm_num [badField])

/-- Outcome of one run of `BloodPressureCalculator.calculate`
(`src/frontend/js/calculators.js`): a validation error shown to the user
with no network call and no classification, or the API request issued
with the parsed readings. -/
inductive BPOutcome
  | validationError (msg : String)
  | apiCall (systolic diastolic : ℤ)
deriving DecidableEq

/-- The validation-and-dispatch path of `BloodPressureCalculator.calculate`
(`src/frontend/js/calculators.js`):
`!systolic || !diastolic || systolic <= 0 || diastolic <= 0` is rejected
first, then `systolic <= diastolic`; only past both guards is
`api.calculateBloodPressure` called. -/
def BloodPressureCalculator.calculate (systolic diastolic : Option ℤ) : BPOutcome :=
  match systolic, diastolic with
  | some s, some d =>
    if s = 0 ∨ d = 0 ∨ s ≤ 0 ∨ d ≤ 0 then
      .validationError "Введите корректные значения давления"
    else if s ≤ d then
      .validationError "Систолическое давление должно быть выше диастолического"
    else
      .apiCall s d
  | _, _ => .validationError "Введите корректные значения давления"

/-- C5: positive readings with systolic ≤ diastolic are rejected as a
validation error before any classification or network call: the outcome
is the validation-error notification, not an API call and not a
category. -/
theorem bp_nonincreasing_rejected (s d : ℤ) (hs : 0 < s) (hd : 0 < d) (hsd : s ≤ d) :
    BloodPressureCalculator.calculate (some s) (some d) =
      .validationError "Систолическое давление должно быть выше диастолического" := by
  simp only [BloodPressureCalculator.calculate]
  rw [if_neg (by omega), if_pos hsd]

/-- Witness for C5: the claim's input (120, 125) yields the validation
failure, not a classification. -/
theorem bp_nonincreasing_rejected_witness :
    BloodPressureCalculator.calculate (some 120) (some 125) =
      .validationError "Систолическое давление должно быть выше диастолического" :=
  bp_nonincreasing_rejected 120 125 (by decide) (by decide) (by decide)

/-- The persisted identity slot (`localStorage` under `CONFIG.STORAGE_KEY`,
`src/frontend/js/storage.js`): `none` models an absent key. -/
abbrev IdentityStore := Option String

/-- JS falsiness of `StorageService.getUserId()`: absent key or the empty
string. -/
def jsFalsyStr : IdentityStore → Bool
  | none => true
  | some s => s == ""

/-- Predicate `StorageService.hasUserId` (`!!this.getUserId()`). -/
def StorageService.hasUserId (store : IdentityStore) : Bool :=
  !(jsFalsyStr store)

/-- Function `AuthService.generateUserId` (`src/unnamed/part_000`):
`user_${timestamp}_${random}` from `Date.now()` and a random base-36
string, modelled with the time and random components as parameters. -/
def AuthService.generateUserId (timestamp : ℕ) (random : String) : String :=
  "user_" ++ toString timestamp ++ "_" ++ random

/-- Function `AuthService.autoInit` (`src/unnamed/part_000`): read the stored id;
if falsy, generate a fresh one and persist it; return the id together
with the resulting store state. -/
def AuthService.autoInit (store : IdentityStore) (timestamp : ℕ) (random : String) :
    String × IdentityStore :=
  match store with
  | none =>
    let newId := AuthService.generateUserId timestamp random
    (newId, some newId)
  | some id =>
    if id = "" then
      let newId := AuthService.generateUserId timestamp random
      (newId, some newId)
    else
      (id, some id)

/-- Predicate `AuthService.isAuthenticated` (`src/unnamed/part_000`). -/
def AuthService.isAuthenticated (store : IdentityStore) : Bool :=
  StorageService.hasUserId store

/-- Function `AuthService.requireAuth` (`src/unnamed/part_000`): run `autoInit`
when unauthenticated, then return `true` unconditionally. -/
def AuthService.requireAuth (store : IdentityStore) (timestamp : ℕ) (random : String) :
    Bool × IdentityStore :=
  if ¬ AuthService.isAuthenticated store = true then
    (true, (AuthService.autoInit store timestamp random).2)
  else
    (true, store)

/-- JS `String.prototype.trim`, modelled executably over the character
list (ASCII whitespace): drop whitespace from both ends. -/
def jsTrim (s : String) : String :=
  ⟨((s.data.dropWhile Char.isWhitespace).reverse.dropWhile Char.isWhitespace).reverse⟩

/-- Function `AuthService.register` (`src/unnamed/part_000`): reject an absent,
empty, or whitespace-only id with no state change; otherwise persist the
trimmed id and report success. -/
def AuthService.register (userId : Option String) (store : IdentityStore) :
    Bool × IdentityStore :=
  match userId with
  | none => (false, store)
  | some s =>
    if s = "" ∨ jsTrim s = "" then
      (false, store)
    else
      (true, some (jsTrim s))

/-- A generated identifier is never the empty string. -/
theorem generateUserId_ne_empty (timestamp : ℕ) (random : String) :
    AuthService.generateUserId timestamp random ≠ "" := by
  intro h
  have hl := congrArg String.length h
  simp [AuthService.generateUserId, String.length_append] at hl
  exact absurd hl.1.1.1 (by decide)

/-- C8: `autoInit` is idempotent.  With a (per the spec, non-empty)
identifier already stored it returns that identifier and leaves the store
unchanged; with no identifier stored it generates, persists and returns a
fresh non-empty identifier; and a second call without an intervening
clear returns exactly what the first call returned. -/
theorem autoInit_idempotent (store : IdentityStore) (id : String)
    (ts ts' : ℕ) (rnd rnd' : String) :
    (store = some id → id ≠ "" →
      AuthService.autoInit store ts rnd = (id, some id)) ∧
    (store = none →
      AuthService.autoInit store ts rnd =
        (AuthService.generateUserId ts rnd, some (AuthService.generateUserId ts rnd)) ∧
      AuthService.generateUserId ts rnd ≠ "") ∧
    AuthService.autoInit (AuthService.autoInit store ts rnd).2 ts' rnd' =
      AuthService.autoInit store ts rnd := by
  refine ⟨?_, ?_, ?_⟩
  · intro hst hne
    subst hst
    simp [AuthService.autoInit, hne]
  · intro hst
    subst hst
    exact ⟨rfl, generateUserId_ne_empty ts rnd⟩
  · cases store with
    | none =>
      simp [AuthService.autoInit, generateUserId_ne_empty ts rnd]
    | some id0 =>
      by_cases h0 : id0 = ""
      · subst h0
        simp [AuthService.autoInit, generateUserId_ne_empty ts rnd]
      · simp [AuthService.autoInit, h0]

/-- Witness for C8: with "user_42_abc" stored, `autoInit` returns it
unchanged, and calling `autoInit` twice from the empty store returns the
same identifier both times. -/
theorem autoInit_idempotent_witness :
    AuthService.autoInit (some "user_42_abc") 7 "zzz" = ("user_42_abc", some "user_42_abc") ∧
    AuthService.autoInit (AuthService.autoInit none 42 "abc").2 7 "zzz" =
      AuthService.autoInit none 42 "abc" := by
  constructor
  · exact (autoInit_idempotent (some "user_42_abc") "user_42_abc" 7 7 "zzz" "zzz").1 rfl
      (by decide)
  · exact (autoInit_idempotent none "" 42 7 "abc" "zzz").2.2

/-- C9: `requireAuth` returns `true` for every storage state, and when no
identity is stored it first creates and persists one via `autoInit`, so
the auth gate never blocks an operation. -/
theorem requireAuth_always_true (store : IdentityStore) (ts : ℕ) (rnd : String) :
    (AuthService.requireAuth store ts rnd).1 = true ∧
    (store = none →
      (AuthService.requireAuth store ts rnd).2 =
        some (AuthService.generateUserId ts rnd)) ∧
    (AuthService.requireAuth store ts rnd).2 ≠ none := by
  refine ⟨?_, ?_, ?_⟩
  · simp only [AuthService.requireAuth]
    split_ifs <;> rfl
  · intro hst
    subst hst
    rfl
  · cases store with
    | none => simp [AuthService.requireAuth, AuthService.isAuthenticated,
        StorageService.hasUserId, jsFalsyStr, AuthService.autoInit]
    | some id0 =>
      by_cases h0 : id0 = ""
      · subst h0
        simp [AuthService.requireAuth, AuthService.isAuthenticated,
          StorageService.hasUserId, jsFalsyStr, AuthService.autoInit]
      · simp [AuthService.requireAuth, AuthService.isAuthenticated,
          StorageService.hasUserId, jsFalsyStr, h0]

/-- Witness for C9: from the empty store, `requireAuth` returns `true`
and persists the freshly generated identifier. -/
theorem requireAuth_always_true_witness :
    (AuthService.requireAuth none 42 "abc").1 = true ∧
    (AuthService.requireAuth none 42 "abc").2 = some "user_42_abc" := by
  have h := requireAuth_always_true none 42 "abc"
  exact ⟨h.1, (h.2.1 rfl).trans (by rfl)⟩

/-- C10: `register` fails (returns `false`) leaving the store unchanged
exactly when the id is absent, empty, or whitespace-only; otherwise it
persists the trimmed id and returns `true`. -/
theorem register_spec (userId : Option String) (store : IdentityStore) (s : String) :
    (AuthService.register none store = (false, store)) ∧
    (userId = some s → jsTrim s = "" →
      AuthService.register userId store = (false, store)) ∧
    (userId = some s → jsTrim s ≠ "" →
      AuthService.register userId store = (true, some (jsTrim s))) ∧
    ((AuthService.register userId store).1 = false →
      (AuthService.register userId store).2 = store) := by
  refine ⟨rfl, ?_, ?_, ?_⟩
  · intro hu ht
    subst hu
    simp [AuthService.register, ht]
  · intro hu ht
    subst hu
    have hs : ¬(s = "" ∨ jsTrim s = "") := by
      intro h
      rcases h with h | h
      · subst h
        exact ht rfl
      · exact ht h
    simp [AuthService.register, hs]
  · cases userId with
    | none => intro _; rfl
    | some t =>
      simp only [AuthService.register]
      split_ifs with h
      · intro _; rfl
      · intro hfalse; cases hfalse

/-- Witness for C10: a padded id "  doc7  " is accepted, stored trimmed
as "doc7"; a whitespace-only id "   " is rejected with no state change. -/
theorem register_spec_witness :
    AuthService.register (some "  doc7  ") (some "old") = (true, some "doc7") ∧
    AuthService.register (some "   ") (some "old") = (false, some "old") := by
  constructor
  · exact (register_spec (some "  doc7  ") (some "old") "  doc7  ").2.2.1 rfl (by decide)
  · exact (register_spec (some "   ") (some "old") "   ").2.1 rfl (by decide)

/-- In-memory pagination state of `HistoryService` (`src/unnamed/part_001`):
`currentOffset`, `currentLimit` (fixed per session), `totalRecords`. -/
structure HistoryState where
  currentOffset : ℤ
  currentLimit : ℤ
  totalRecords : ℤ
deriving DecidableEq

/-- Body of a `getHistory` response: the `calculations` array (`none`
models a missing field; records are abstracted to their ids) and the
server-reported `total`. -/
structure HistoryResponse where
  calculations : Option (List ℤ)
  total : Option ℤ
deriving DecidableEq

/-- What `HistoryService.renderHistory` puts into the container: the
empty-history placeholder, or a list of `n` record cards. -/
inductive HistoryRender
  | emptyPlaceholder
  | items (n : ℕ)
deriving DecidableEq

/-- Function `HistoryService.renderHistory` (`src/unnamed/part_001`): a missing or
empty `calculations` array renders the placeholder — an empty page is a
defined render, not a thrown error. -/
def HistoryService.renderHistory (data : HistoryResponse) : HistoryRender :=
  match data.calculations with
  | none => .emptyPlaceholder
  | some [] => .emptyPlaceholder
  | some l => .items l.length

/-- Observable result of one `HistoryService.loadHistory` run: the state
afterwards, the offset actually passed to `api.getHistory` (`none` if no
request was made), and what was rendered (`none` if rendering was not
reached). -/
structure LoadResult where
  newState : HistoryState
  fetchedOffset : Option ℤ
  rendered : Option HistoryRender
deriving DecidableEq

/-- Function `HistoryService.loadHistory` (`src/unnamed/part_001`): store the
requested offset, fetch at that offset, then on success take `total`
from the response (`data.total || 0`) and render; on a fetch error only
the already-updated offset remains. -/
def HistoryService.loadHistory (st : HistoryState) (offset : ℤ)
    (response : Except String HistoryResponse) : LoadResult :=
  let st1 := { st with currentOffset := offset }
  match response with
  | .error _ => ⟨st1, some offset, none⟩
  | .ok data =>
    ⟨{ st1 with totalRecords := match data.total with | none => 0 | some t => t },
      some offset, some (HistoryService.renderHistory data)⟩

/-- Function `HistoryService.deleteCalculation` (`src/unnamed/part_001`): after the
confirmation prompt and a successful `api.deleteCalculation`, reload the
history at `this.currentOffset`; an unconfirmed prompt or a failed delete
performs no reload (`none`). -/
def HistoryService.deleteCalculation (st : HistoryState) (confirmed : Bool)
    (deleteResult : Except String Unit)
    (reloadResponse : Except String HistoryResponse) : Option LoadResult :=
  if confirmed = false then
    none
  else
    match deleteResult with
    | .error _ => none
    | .ok _ => some (HistoryService.loadHistory st st.currentOffset reloadResponse)

/-- C7: after a confirmed, successful delete, the history is re-fetched
at exactly the offset that was current before the delete — the offset is
unchanged, not reset to 0 — and an empty result set at that offset
renders the empty placeholder rather than throwing. -/
theorem delete_reloads_current_offset (st : HistoryState)
    (resp : HistoryResponse) (r : LoadResult)
    (h : HistoryService.deleteCalculation st true (.ok ()) (.ok resp) = some r) :
    r.fetchedOffset = some st.currentOffset ∧
    r.newState.currentOffset = st.currentOffset ∧
    r.newState.currentLimit = st.currentLimit ∧
    (resp.calculations = some [] → r.rendered = some .emptyPlaceholder) := by
  have he : r = HistoryService.loadHistory st st.currentOffset (.ok resp) := by
    simpa [HistoryService.deleteCalculation] using h.symm
  subst he
  refine ⟨rfl, rfl, rfl, ?_⟩
  intro hempty
  simp [HistoryService.loadHistory, HistoryService.renderHistory, hempty]

/-- Witness for C7: deleting the only record on page 3 (offset 20,
limit 10) re-fetches offset 20, keeps offset 20, and renders the empty
placeholder for the now-empty page. -/
theorem delete_reloads_current_offset_witness :
    (HistoryService.deleteCalculation ⟨20, 10, 21⟩ true (.ok ()) (.ok ⟨some [], some 20⟩) =
      some (HistoryService.loadHistory ⟨20, 10, 21⟩ 20 (.ok ⟨some [], some 20⟩))) ∧
    (HistoryService.loadHistory ⟨20, 10, 21⟩ 20 (.ok ⟨some [], some 20⟩)).fetchedOffset =
      some 20 ∧
    (HistoryService.loadHistory ⟨20, 10, 21⟩ 20 (.ok ⟨some [], some 20⟩)).rendered =
      some .emptyPlaceholder := by
  have h := delete_reloads_current_offset ⟨20, 10, 21⟩ ⟨some [], some 20⟩
    (HistoryService.loadHistory ⟨20, 10, 21⟩ 20 (.ok ⟨some [], some 20⟩)) rfl
  exact ⟨rfl, h.1, h.2.2.2 rfl⟩

/-- Page count `Math.ceil(this.totalRecords / this.currentLimit)` in
`HistoryService.renderPagination` (`src/unnamed/part_001`). -/
def HistoryService.totalPages (totalRecords currentLimit : ℤ) : ℤ :=
  ⌈(totalRecords : ℚ) / (currentLimit : ℚ)⌉

/-- Current page `Math.floor(this.currentOffset / this.currentLimit) + 1` in
`HistoryService.renderPagination` (`src/unnamed/part_001`). -/
def HistoryService.currentPage (currentOffset currentLimit : ℤ) : ℤ :=
  ⌊(currentOffset : ℚ) / (currentLimit : ℚ)⌋ + 1

/-- The pagination controls emitted by `HistoryService.renderPagination`
when more than one page exists: the visible window `[startPage, endPage]`,
the first/last shortcut buttons, the two ellipses, the disabled states of
Previous/Next and their target offsets. -/
structure PaginationControls where
  startPage : ℤ
  endPage : ℤ
  windowPages : List ℤ
  showFirst : Bool
  leadingDots : Bool
  showLast : Bool
  trailingDots : Bool
  prevDisabled : Bool
  nextDisabled : Bool
  prevOffset : ℤ
  nextOffset : ℤ
deriving DecidableEq

/-- Everything `renderPagination` renders: the computed page count and
current page, and the controls (`none` when `totalPages <= 1` and only
the record-count line is shown). -/
structure PaginationView where
  totalPages : ℤ
  currentPage : ℤ
  controls : Option PaginationControls
deriving DecidableEq

/-- The control-building part of `HistoryService.renderPagination`
(`src/unnamed/part_001`): `maxVisible = 5`;
`startPage = max(1, currentPage - floor(5 / 2))`;
`endPage = min(totalPages, startPage + 4)`; if the window is short,
`startPage = max(1, endPage - 4)`; first-page button iff `startPage > 1`,
leading dots iff `startPage > 2`; last-page button iff
`endPage < totalPages`, trailing dots iff `endPage < totalPages - 1`;
Previous disabled iff `currentPage == 1` with offset
`(currentPage - 2) * limit`; Next disabled iff `currentPage == totalPages`
with offset `currentPage * limit`. -/
def HistoryService.pageControls (T c limit : ℤ) : PaginationControls :=
  let s0 := max 1 (c - 2)
  let e := min T (s0 + 4)
  let s := if e - s0 < 4 then max 1 (e - 4) else s0
  { startPage := s
    endPage := e
    windowPages := (List.range (e + 1 - s).toNat).map (fun i : ℕ => s + (i : ℤ))
    showFirst := decide (1 < s)
    leadingDots := decide (2 < s)
    showLast := decide (e < T)
    trailingDots := decide (e < T - 1)
    prevDisabled := c == 1
    nextDisabled := c == T
    prevOffset := (c - 2) * limit
    nextOffset := c * limit }

/-- Function `HistoryService.renderPagination` (`src/unnamed/part_001`): compute
page count and current page; with at most one page render only the
record-count line (no controls), otherwise build the controls. -/
def HistoryService.renderPagination (totalRecords currentLimit currentOffset : ℤ) :
    PaginationView :=
  let T := HistoryService.totalPages totalRecords currentLimit
  let c := HistoryService.currentPage currentOffset currentLimit
  if T ≤ 1 then
    ⟨T, c, none⟩
  else
    ⟨T, c, some (HistoryService.pageControls T c currentLimit)⟩

/-- All page numbers reachable from the rendered controls: the first-page
shortcut, the window, the last-page shortcut. -/
def PaginationControls.renderedPages (pc : PaginationControls) (T : ℤ) : List ℤ :=
  (if pc.showFirst then [1] else []) ++ pc.windowPages ++
    (if pc.showLast then [T] else [])

/-- The window list enumerates exactly the integers of
`[startPage, endPage]`. -/
theorem mem_pagesList (s e x : ℤ) (hse : s ≤ e) :
    (x ∈ (List.range (e + 1 - s).toNat).map (fun i : ℕ => s + (i : ℤ))) ↔
      (s ≤ x ∧ x ≤ e) := by
  rw [List.mem_map]
  constructor
  · rintro ⟨i, hmem, heq⟩
    rw [List.mem_range] at hmem
    subst heq
    omega
  · intro hx
    refine ⟨(x - s).toNat, ?_, ?_⟩
    · rw [List.mem_range]
      omega
    · omega

/-- Window/ellipsis/button properties of the rendered controls, stated
for abstract page count `T ≥ 2` and current page `c ≥ 1`. -/
def paginationWindowOK (T c : ℤ) (pc : PaginationControls) : Prop :=
  (1 ≤ pc.startPage ∧ pc.startPage ≤ pc.endPage ∧ pc.endPage ≤ T) ∧
  pc.endPage - pc.startPage ≤ 4 ∧
  (∀ x : ℤ, x ∈ pc.windowPages ↔ pc.startPage ≤ x ∧ x ≤ pc.endPage) ∧
  (c ≤ T → pc.startPage ≤ c ∧ c ≤ pc.endPage) ∧
  (5 ≤ T → c ≤ T → pc.endPage - pc.startPage = 4) ∧
  (1 : ℤ) ∈ pc.renderedPages T ∧
  T ∈ pc.renderedPages T ∧
  (pc.leadingDots = true ↔ 2 < pc.startPage) ∧
  (pc.trailingDots = true ↔ pc.endPage < T - 1) ∧
  (pc.showFirst = true ↔ 1 < pc.startPage) ∧
  (pc.showLast = true ↔ pc.endPage < T) ∧
  (pc.prevDisabled = true ↔ c = 1) ∧
  (pc.nextDisabled = true ↔ c = T)

/-- The controls built by `pageControls` satisfy all window, ellipsis and
button properties. -/
theorem pageControls_window_spec (T c limit : ℤ) (hT : 2 ≤ T) (hc : 1 ≤ c) :
    paginationWindowOK T c (HistoryService.pageControls T c limit) := by
  have hstart : (HistoryService.pageControls T c limit).startPage =
      (if min T (max 1 (c - 2) + 4) - max 1 (c - 2) < 4
        then max 1 (min T (max 1 (c - 2) + 4) - 4) else max 1 (c - 2)) := rfl
  have hend : (HistoryService.pageControls T c limit).endPage =
      min T (max 1 (c - 2) + 4) := rfl
  have key : 1 ≤ (HistoryService.pageControls T c limit).startPage ∧
      (HistoryService.pageControls T c limit).startPage ≤
        (HistoryService.pageControls T c limit).endPage ∧
      (HistoryService.pageControls T c limit).endPage ≤ T ∧
      (HistoryService.pageControls T c limit).endPage -
        (HistoryService.pageControls T c limit).startPage ≤ 4 ∧
      (c ≤ T → (HistoryService.pageControls T c limit).startPage ≤ c ∧
        c ≤ (HistoryService.pageControls T c limit).endPage) ∧
      (5 ≤ T → c ≤ T → (HistoryService.pageControls T c limit).endPage -
        (HistoryService.pageControls T c limit).startPage = 4) := by
    rw [hstart, hend]
    split_ifs <;> omega
  have hwinmem : ∀ x : ℤ, x ∈ (HistoryService.pageControls T c limit).windowPages ↔
      (HistoryService.pageControls T c limit).startPage ≤ x ∧
        x ≤ (HistoryService.pageControls T c limit).endPage := by
    intro x
    exact mem_pagesList _ _ x key.2.1
  have hSF : (HistoryService.pageControls T c limit).showFirst =
      decide (1 < (HistoryService.pageControls T c limit).startPage) := rfl
  have hSL : (HistoryService.pageControls T c limit).showLast =
      decide ((HistoryService.pageControls T c limit).endPage < T) := rfl
  have h1mem : (1 : ℤ) ∈
      (HistoryService.pageControls T c limit).renderedPages T := by
    simp only [PaginationControls.renderedPages, List.mem_append]
    by_cases h1 : 1 < (HistoryService.pageControls T c limit).startPage
    · left
      left
      rw [hSF, decide_eq_true h1]
      simp
    · left
      right
      exact (hwinmem 1).2 ⟨by omega, by
        have := key.1
        have := key.2.1
        omega⟩
  have hTmem : T ∈ (HistoryService.pageControls T c limit).renderedPages T := by
    simp only [PaginationControls.renderedPages, List.mem_append]
    by_cases hE : (HistoryService.pageControls T c limit).endPage < T
    · right
      rw [hSL, decide_eq_true hE]
      simp
    · left
      right
      exact (hwinmem T).2 ⟨by
        have := key.2.1
        have := key.2.2.1
        omega, by omega⟩
  refine ⟨⟨key.1, key.2.1, key.2.2.1⟩, key.2.2.2.1, hwinmem, key.2.2.2.2.1,
    key.2.2.2.2.2, h1mem, hTmem, ?_, ?_, ?_, ?_, ?_, ?_⟩
  · exact decide_eq_true_iff
  · exact decide_eq_true_iff
  · exact decide_eq_true_iff
  · exact decide_eq_true_iff
  · exact beq_iff_eq
  · exact beq_iff_eq

/-- With a non-negative offset and positive limit the computed current
page is at least 1. -/
theorem currentPage_pos (offset limit : ℤ) (hoff : 0 ≤ offset) (hlim : 0 < limit) :
    1 ≤ HistoryService.currentPage offset limit := by
  have h : (0 : ℤ) ≤ ⌊(offset : ℚ) / (limit : ℚ)⌋ := by
    rw [Int.floor_nonneg]
    positivity
  simp only [HistoryService.currentPage]
  omega

/-- The rendered view always carries the computed page count. -/
theorem renderPagination_totalPages (totalRecords currentLimit currentOffset : ℤ) :
    (HistoryService.renderPagination totalRecords currentLimit currentOffset).totalPages =
      HistoryService.totalPages totalRecords currentLimit := by
  simp only [HistoryService.renderPagination]
  split_ifs <;> rfl

/-- The rendered view always carries the computed current page. -/
theorem renderPagination_currentPage (totalRecords currentLimit currentOffset : ℤ) :
    (HistoryService.renderPagination totalRecords currentLimit currentOffset).currentPage =
      HistoryService.currentPage currentOffset currentLimit := by
  simp only [HistoryService.renderPagination]
  split_ifs <;> rfl

/-- With at most one page, no pagination controls are rendered. -/
theorem renderPagination_controls_none (totalRecords currentLimit currentOffset : ℤ)
    (h : HistoryService.totalPages totalRecords currentLimit ≤ 1) :
    (HistoryService.renderPagination totalRecords currentLimit currentOffset).controls =
      none := by
  simp only [HistoryService.renderPagination]
  rw [if_pos h]

/-- With at least two pages, the rendered controls are exactly
`pageControls`. -/
theorem renderPagination_controls_some (totalRecords currentLimit currentOffset : ℤ)
    (h : 2 ≤ HistoryService.totalPages totalRecords currentLimit) :
    (HistoryService.renderPagination totalRecords currentLimit currentOffset).controls =
      some (HistoryService.pageControls
        (HistoryService.totalPages totalRecords currentLimit)
        (HistoryService.currentPage currentOffset currentLimit) currentLimit) := by
  simp only [HistoryService.renderPagination]
  rw [if_neg (by omega)]

/-- C6 (amended): pagination computes `pageCount = ceil(total / limit)`
and `currentPage = floor(offset / limit) + 1`; when `pageCount ≤ 1` no
controls are rendered; when `pageCount ≥ 2` the controls show a window of
up to 5 consecutive page numbers containing the current page (exactly 5
when `pageCount ≥ 5` and the current page is in range), clamped to
`[1, pageCount]`, keep the first and last page reachable, emit each
ellipsis exactly when the window is separated from that edge by at least
one omitted page (leading iff `startPage > 2`, trailing iff
`endPage < pageCount - 1` — not merely when the window fails to touch the
edge), and disable Previous exactly at `currentPage = 1` and Next exactly
at `currentPage = pageCount`. -/
theorem pagination_spec (total limit offset : ℤ)
    (htot : 0 ≤ total) (hlim : 0 < limit) (hoff : 0 ≤ offset) :
    (HistoryService.renderPagination total limit offset).totalPages =
      ⌈(total : ℚ) / (limit : ℚ)⌉ ∧
    (HistoryService.renderPagination total limit offset).currentPage =
      ⌊(offset : ℚ) / (limit : ℚ)⌋ + 1 ∧
    (HistoryService.totalPages total limit ≤ 1 →
      (HistoryService.renderPagination total limit offset).controls = none) ∧
    (2 ≤ HistoryService.totalPages total limit →
      (HistoryService.renderPagination total limit offset).controls =
        some (HistoryService.pageControls (HistoryService.totalPages total limit)
          (HistoryService.currentPage offset limit) limit)) ∧
    (2 ≤ HistoryService.totalPages total limit →
      paginationWindowOK (HistoryService.totalPages total limit)
        (HistoryService.currentPage offset limit)
        (HistoryService.pageControls (HistoryService.totalPages total limit)
          (HistoryService.currentPage offset limit) limit)) := by
  refine ⟨renderPagination_totalPages total limit offset,
    renderPagination_currentPage total limit offset,
    renderPagination_controls_none total limit offset,
    renderPagination_controls_some total limit offset, ?_⟩
  intro hT
  exact pageControls_window_spec _ _ limit hT (currentPage_pos offset limit hoff hlim)

/-- Page count of the claim's example: 47 records, limit 10. -/
theorem totalPages_47_10 : HistoryService.totalPages 47 10 = 5 := by
  norm_num [HistoryService.totalPages, Int.ceil_eq_iff]

/-- Page count with 200 records, limit 10. -/
theorem totalPages_200_10 : HistoryService.totalPages 200 10 = 20 := by
  norm_num [HistoryService.totalPages, Int.ceil_eq_iff]

/-- Current page at offset 20, limit 10. -/
theorem currentPage_20_10 : HistoryService.currentPage 20 10 = 3 := by
  norm_num [HistoryService.currentPage, Int.floor_eq_iff]

/-- Current page at offset 30, limit 10. -/
theorem currentPage_30_10 : HistoryService.currentPage 30 10 = 4 := by
  norm_num [HistoryService.currentPage, Int.floor_eq_iff]

/-- Current page at offset 90, limit 10. -/
theorem currentPage_90_10 : HistoryService.currentPage 90 10 = 10 := by
  norm_num [HistoryService.currentPage, Int.floor_eq_iff]

/-- Witness for C6 (amended): total 47, limit 10, offset 20 gives page
count 5 and current page 3 and shows window 1..5 with no shortcut buttons
and no ellipses; total 200, limit 10, offset 90 (current page 10 of 20)
shows window 8..12 with both shortcut buttons and both ellipses. -/
theorem pagination_spec_witness :
    (HistoryService.renderPagination 47 10 20).totalPages = 5 ∧
    (HistoryService.renderPagination 47 10 20).currentPage = 3 ∧
    (HistoryService.renderPagination 47 10 20).controls =
      some { startPage := 1, endPage := 5, windowPages := [1, 2, 3, 4, 5],
             showFirst := false, leadingDots := false, showLast := false,
             trailingDots := false, prevDisabled := false, nextDisabled := false,
             prevOffset := 10, nextOffset := 30 } ∧
    (HistoryService.renderPagination 200 10 90).currentPage = 10 ∧
    (HistoryService.renderPagination 200 10 90).controls =
      some { startPage := 8, endPage := 12, windowPages := [8, 9, 10, 11, 12],
             showFirst := true, leadingDots := true, showLast := true,
             trailingDots := true, prevDisabled := false, nextDisabled := false,
             prevOffset := 80, nextOffset := 100 } := by
  have h1 := pagination_spec 47 10 20 (by norm_num) (by norm_num) (by norm_num)
  have h2 := pagination_spec 200 10 90 (by norm_num) (by norm_num) (by norm_num)
  refine ⟨?_, ?_, ?_, ?_, ?_⟩
  · rw [renderPagination_totalPages, totalPages_47_10]
  · rw [renderPagination_currentPage, currentPage_20_10]
  · rw [h1.2.2.2.1 (by rw [totalPages_47_10]; norm_num), totalPages_47_10,
      currentPage_20_10]
    decide
  · rw [renderPagination_currentPage, currentPage_90_10]
  · rw [h2.2.2.2.1 (by rw [totalPages_200_10]; norm_num), totalPages_200_10,
      currentPage_90_10]
    decide

/-- Counterexample to C6 as stated: with 200 records, limit 10,
offset 30 (current page 4 of 20) the window starts at page 2 — it does
not touch the first page — yet no leading ellipsis is emitted (the
shortcut button for page 1 sits directly next to the window). -/
theorem pagination_dots_cex :
    (HistoryService.renderPagination 200 10 30).controls.map
      (fun pc => (pc.startPage, pc.showFirst, pc.leadingDots)) =
      some (2, true, false) := by
  rw [renderPagination_controls_some 200 10 30 (by rw [totalPages_200_10]; norm_num),
    totalPages_200_10, currentPage_30_10]
  decide
